import Mathlib

-- A Lean model of the account-autoconfiguration engine
-- (`src/configure/mod.rs` and `src/configure/server_params.rs`):
-- the candidate-expansion functions, the offline/online autoconfig
-- cascade, the connection trial loops, and the orchestrator with its
-- progress/cancellation protocol.  Network and storage collaborators
-- are abstracted as oracle functions in an `Env` record; everything
-- else is translated directly from the Rust source.

namespace DC

/-- Protocol, such as IMAP or SMTP (`crate::provider::Protocol`). -/
inductive Protocol where
  | IMAP
  | SMTP
deriving DecidableEq, Repr

/-- Socket security (`crate::provider::Socket`). -/
inductive Socket where
  | Automatic
  | SSL
  | STARTTLS
  | Plain
deriving DecidableEq, Repr

/-- Set of variable parameters to try during configuration
(`configure/server_params.rs`, struct `ServerParams`). -/
structure ServerParams where
  protocol : Protocol
  hostname : String
  port : Nat
  socket : Socket
  username : String
deriving DecidableEq, Repr

/-- Whether a string contains a given character (Rust `str::find` /
`str::contains` on a char pattern).  Stated on the character list so
that it evaluates by kernel reduction. -/
def strContains (s : String) (c : Char) : Bool :=
  s.data.contains c

/-- The substring of `addr` before the first `'@'`
(Rust `addr.split_at(addr.find('@').unwrap()).0`). -/
def localPart (addr : String) : String :=
  ⟨addr.data.takeWhile (fun c => c != '@')⟩

/-- `ServerParams::expand_usernames` from `configure/server_params.rs`. -/
def ServerParams.expand_usernames (self : ServerParams) (addr : String) :
    List ServerParams :=
  if self.username.isEmpty then
    if strContains addr '@' then
      [{ self with username := addr }, { self with username := localPart addr }]
    else
      [{ self with username := addr }]
  else
    [self]

/-- `ServerParams::expand_hostnames` from `configure/server_params.rs`. -/
def ServerParams.expand_hostnames (self : ServerParams) (param_domain : String) :
    List ServerParams :=
  if self.hostname.isEmpty then
    [{ self with hostname := param_domain },
     { self with hostname :=
        (match self.protocol with
         | Protocol.IMAP => "imap."
         | Protocol.SMTP => "smtp.") ++ param_domain },
     { self with hostname := "mail." ++ param_domain }]
  else
    [self]

/-- `ServerParams::expand_ports` from `configure/server_params.rs`.
First the port is inferred from a concrete socket security when it is
zero, then the remaining unknown combinations are fanned out. -/
def ServerParams.expand_ports (self : ServerParams) : List ServerParams :=
  let self :=
    if self.port == 0 then
      { self with port :=
          match self.socket with
          | Socket.SSL =>
            match self.protocol with
            | Protocol.IMAP => 993
            | Protocol.SMTP => 465
          | Socket.STARTTLS | Socket.Plain =>
            match self.protocol with
            | Protocol.IMAP => 143
            | Protocol.SMTP => 587
          | Socket.Automatic => 0 }
    else self
  if self.port == 0 then
    [{ self with socket := Socket.STARTTLS,
                 port :=
                   match self.protocol with
                   | Protocol.IMAP => 143
                   | Protocol.SMTP => 587 },
     { self with socket := Socket.SSL,
                 port :=
                   match self.protocol with
                   | Protocol.IMAP => 993
                   | Protocol.SMTP => 465 }]
  else if self.socket == Socket.Automatic then
    [{ self with socket := Socket.SSL },
     { self with socket := Socket.STARTTLS }]
  else
    [self]

/-- Canonical implicit-TLS port of a protocol. -/
def sslPort : Protocol → Nat
  | Protocol.IMAP => 993
  | Protocol.SMTP => 465

/-- Canonical plaintext-upgrade (STARTTLS/Plain) port of a protocol. -/
def starttlsPort : Protocol → Nat
  | Protocol.IMAP => 143
  | Protocol.SMTP => 587

/-- The four-case port/socket expansion exactly as the specification
words it, used as the reference point for `expand_ports`. -/
def expandPortsSpec (s : ServerParams) : List ServerParams :=
  if s.port = 0 then
    match s.socket with
    | Socket.Automatic =>
      [{ s with socket := Socket.STARTTLS, port := starttlsPort s.protocol },
       { s with socket := Socket.SSL, port := sslPort s.protocol }]
    | Socket.SSL => [{ s with port := sslPort s.protocol }]
    | Socket.STARTTLS => [{ s with port := starttlsPort s.protocol }]
    | Socket.Plain => [{ s with port := starttlsPort s.protocol }]
  else if s.socket = Socket.Automatic then
    [{ s with socket := Socket.SSL }, { s with socket := Socket.STARTTLS }]
  else
    [s]

/-- The per-protocol expansion pipeline applied in `configure`
(`configure/mod.rs`): usernames first, then hostnames, then ports,
composed with flattening. -/
def expandServers (addr domain : String) (servers : List ServerParams) :
    List ServerParams :=
  ((servers.flatMap (fun s => s.expand_usernames addr)).flatMap
      (fun s => s.expand_hostnames domain)).flatMap
    (fun s => s.expand_ports)

/-- C1: `expand_ports` satisfies the four-case port/socket
specification: unset port with a concrete socket yields the single
canonical-port candidate with the socket unchanged; unset port with
`Automatic` yields `[STARTTLS@plaintext-upgrade-port, SSL@implicit-TLS-port]`;
a set port with `Automatic` yields `[SSL, STARTTLS]` at that port; a
fully specified descriptor is returned unchanged. -/
theorem expand_ports_four_cases (s : ServerParams) :
    s.expand_ports = expandPortsSpec s := by
  rcases s with ⟨proto, host, port, sock, user⟩
  by_cases h : port = 0 <;>
    cases sock <;> cases proto <;>
      simp [ServerParams.expand_ports, expandPortsSpec, sslPort, starttlsPort, h]

/-- C2: on a fully blank descriptor, the three-step expansion pipeline
is the flattening cross-product with the username outermost, the
hostname in the middle, and port/socket innermost — 12 candidates in
the documented order — and every single step whose field is already
set passes its candidate through unchanged. -/
theorem expansion_cross_product (p : Protocol) (addr domain : String)
    (h1 : strContains addr '@' = true) (h2 : domain ≠ "") :
    (expandServers addr domain
        [{ protocol := p, hostname := "", port := 0,
           socket := Socket.Automatic, username := "" }] =
      ([addr, localPart addr].flatMap (fun u =>
        [domain,
         (match p with
          | Protocol.IMAP => "imap."
          | Protocol.SMTP => "smtp.") ++ domain,
         "mail." ++ domain].flatMap (fun hn =>
          [{ protocol := p, hostname := hn, port := starttlsPort p,
             socket := Socket.STARTTLS, username := u },
           { protocol := p, hostname := hn, port := sslPort p,
             socket := Socket.SSL, username := u }]))))
    ∧ (∀ s : ServerParams, s.username ≠ "" → s.expand_usernames addr = [s])
    ∧ (∀ s : ServerParams, s.hostname ≠ "" → s.expand_hostnames domain = [s])
    ∧ (∀ s : ServerParams, s.port ≠ 0 → s.socket ≠ Socket.Automatic →
        s.expand_ports = [s]) := by
  refine ⟨?_, ?_, ?_, ?_⟩
  · cases p <;>
      simp +decide [expandServers, ServerParams.expand_usernames,
        ServerParams.expand_hostnames, ServerParams.expand_ports, h1,
        starttlsPort, sslPort]
  · intro s hs
    simp [ServerParams.expand_usernames, String.isEmpty_iff, hs]
  · intro s hs
    simp [ServerParams.expand_hostnames, String.isEmpty_iff, hs]
  · intro s hp hsock
    cases hsockv : s.socket <;>
      simp_all [ServerParams.expand_ports, hp]

/-- Witness for C2 at a concrete protocol, address and domain. -/
theorem expansion_cross_product_witness :
    expandServers "user@example.org" "example.org"
        [{ protocol := Protocol.IMAP, hostname := "", port := 0,
           socket := Socket.Automatic, username := "" }] =
      ["user@example.org", localPart "user@example.org"].flatMap (fun u =>
        ["example.org", "imap." ++ "example.org",
         "mail." ++ "example.org"].flatMap (fun hn =>
          [{ protocol := Protocol.IMAP, hostname := hn,
             port := starttlsPort Protocol.IMAP,
             socket := Socket.STARTTLS, username := u },
           { protocol := Protocol.IMAP, hostname := hn,
             port := sslPort Protocol.IMAP,
             socket := Socket.SSL, username := u }])) :=
  (expansion_cross_product Protocol.IMAP "user@example.org" "example.org"
    (by decide) (by decide)).1

/-- Provider status (`crate::provider::Status`). -/
inductive Status where
  | OK
  | PREPARATION
  | BROKEN
deriving DecidableEq, Repr

/-- Username derivation pattern (`crate::provider::UsernamePattern`). -/
inductive UsernamePattern where
  | EMAIL
  | EMAILLOCALPART
deriving DecidableEq, Repr

/-- One server descriptor of an offline provider record
(`crate::provider::Server`). -/
structure ProviderServer where
  protocol : Protocol
  socket : Socket
  hostname : String
  port : Nat
  username_pattern : UsernamePattern
deriving DecidableEq, Repr

/-- Offline provider record (`crate::provider::Provider`), restricted
to the fields `get_offline_autoconfig` reads. -/
structure Provider where
  status : Status
  server : List ProviderServer
deriving DecidableEq, Repr

/-- Mapping of one offline provider server descriptor to a
`ServerParams`, as done inside `get_offline_autoconfig`
(`configure/mod.rs`): the username is derived from the record's
pattern — full address, or the local part when the pattern is
`EMAILLOCALPART` and the address contains an `'@'`. -/
def offlineServerParams (addr : String) (s : ProviderServer) : ServerParams :=
  { protocol := s.protocol,
    socket := s.socket,
    hostname := s.hostname,
    port := s.port,
    username :=
      match s.username_pattern with
      | UsernamePattern.EMAIL => addr
      | UsernamePattern.EMAILLOCALPART =>
        if strContains addr '@' then localPart addr else addr }

/-- `get_offline_autoconfig` from `configure/mod.rs`.  The provider
knowledge base (`provider::get_provider_info`, an external collaborator
per the spec) is passed in as a lookup function. -/
def get_offline_autoconfig (db : String → Option Provider) (addr : String) :
    Option (List ServerParams) :=
  match db addr with
  | some provider =>
    match provider.status with
    | Status.OK | Status.PREPARATION =>
      if provider.server.isEmpty then
        none
      else
        some (provider.server.map (offlineServerParams addr))
    | Status.BROKEN => none
  | none => none

/-- C5: the offline lookup returns `some` exactly for an existing
record with status OK or Preparation and a non-empty server list, in
which case each descriptor is mapped through `offlineServerParams`
(which applies the username-derivation pattern); a Broken record, an
empty server list or a missing record all yield `none`. -/
theorem offline_autoconfig_cases (db : String → Option Provider) (addr : String) :
    ((get_offline_autoconfig db addr).isSome ↔
      ∃ p, db addr = some p ∧
        (p.status = Status.OK ∨ p.status = Status.PREPARATION) ∧
        p.server ≠ []) ∧
    (∀ p l, db addr = some p → get_offline_autoconfig db addr = some l →
      l = p.server.map (offlineServerParams addr)) ∧
    (∀ p, db addr = some p → p.status = Status.BROKEN →
      get_offline_autoconfig db addr = none) ∧
    (∀ p, db addr = some p → p.server = [] →
      get_offline_autoconfig db addr = none) ∧
    (db addr = none → get_offline_autoconfig db addr = none) := by
  refine ⟨?_, ?_, ?_, ?_, ?_⟩
  · constructor
    · intro hs
      match hdb : db addr with
      | none => simp [get_offline_autoconfig, hdb] at hs
      | some p =>
        refine ⟨p, rfl, ?_⟩
        cases hst : p.status <;>
          simp_all [get_offline_autoconfig, hdb, hst, List.isEmpty_iff]
    · rintro ⟨p, hdb, hst, hne⟩
      cases hst with
      | inl h =>
        simp [get_offline_autoconfig, hdb, h, List.isEmpty_iff, hne]
      | inr h =>
        simp [get_offline_autoconfig, hdb, h, List.isEmpty_iff, hne]
  · intro p l hdb hl
    cases hst : p.status <;>
      simp_all [get_offline_autoconfig, hdb, hst]
  · intro p hdb hst
    simp [get_offline_autoconfig, hdb, hst]
  · intro p hdb hse
    cases hst : p.status <;> simp [get_offline_autoconfig, hdb, hst, hse]
  · intro hdb
    simp [get_offline_autoconfig, hdb]

/-- Witness for C5: for a concrete OK record with one server, the
returned list is the pattern-derived mapping of the record. -/
theorem offline_autoconfig_witness :
    [({ protocol := Protocol.IMAP, socket := Socket.STARTTLS,
        hostname := "imap.nauta.cu", port := 143,
        username := "someone@nauta.cu" } : ServerParams)] =
      ([{ protocol := Protocol.IMAP, socket := Socket.STARTTLS,
          hostname := "imap.nauta.cu", port := 143,
          username_pattern := UsernamePattern.EMAIL }] :
        List ProviderServer).map (offlineServerParams "someone@nauta.cu") :=
  (offline_autoconfig_cases
      (fun a =>
        if a = "someone@nauta.cu" then
          some { status := Status.OK,
                 server := [{ protocol := Protocol.IMAP,
                              socket := Socket.STARTTLS,
                              hostname := "imap.nauta.cu", port := 143,
                              username_pattern := UsernamePattern.EMAIL }] }
        else none)
      "someone@nauta.cu").2.1
    { status := Status.OK,
      server := [{ protocol := Protocol.IMAP, socket := Socket.STARTTLS,
                   hostname := "imap.nauta.cu", port := 143,
                   username_pattern := UsernamePattern.EMAIL }] }
    _ (by decide) (by decide)

/-- One protocol's login parameters (`login_param.rs`,
`ServerLoginParam`), restricted to the fields `configure` touches.
The certificate-check policy is kept abstract as a number. -/
structure ServerLoginParam where
  server : String
  port : Nat
  security : Socket
  user : String
  password : String
  certificate_checks : Nat
deriving DecidableEq, Repr

/-- Login parameters of one account (`login_param.rs`, `LoginParam`).
The `server_flags` bitmask is modelled by the boolean it is normalized
to at the start of `configure` (OAuth2 vs normal authentication). -/
structure LoginParam where
  addr : String
  imap : ServerLoginParam
  smtp : ServerLoginParam
  oauth2 : Bool
deriving DecidableEq, Repr

/-- Parsed email address (local part and domain).

Modelled from the spec: `EmailAddress` parsing lives in `dc_tools.rs`,
which is not among these sources; per the spec the address is parsed
into local-part/domain and parsing fails on malformed input.  We split
at the last `'@'` and require both sides to be non-empty. -/
structure EmailAddr where
  localpart : String
  domain : String
deriving DecidableEq, Repr

/-- Modelled from the spec: parse an address into local part and
domain at the last `'@'`, failing when either side is empty or no
`'@'` is present (`dc_tools.rs` `EmailAddress`, not among these
sources). -/
def parseEmailAddress (addr : String) : Option EmailAddr :=
  let rev := addr.data.reverse
  let revDomain := rev.takeWhile (fun c => c != '@')
  if revDomain.length = rev.length then
    none
  else
    let domain := revDomain.reverse
    let lp := addr.data.take (addr.data.length - revDomain.length - 1)
    if lp.isEmpty || domain.isEmpty then none
    else some { localpart := ⟨lp⟩, domain := ⟨domain⟩ }

/-- Uppercase hexadecimal digit of a number below 16. -/
def hexDigit (n : Nat) : Char :=
  if n < 10 then Char.ofNat (48 + n) else Char.ofNat (55 + n)

/-- Modelled from the spec: the URL-safe percent-encoding of one
character (`percent_encoding::utf8_percent_encode` with
`NON_ALPHANUMERIC`, an external crate): ASCII alphanumerics pass
through, every other character's UTF-8 bytes become `%XX` escapes. -/
def percentEncodeChar (c : Char) : String :=
  if c.isAlphanum then
    String.singleton c
  else
    String.join ((String.utf8EncodeChar c).map (fun b =>
      ⟨['%', hexDigit (b.toNat / 16), hexDigit (b.toNat % 16)]⟩))

/-- Modelled from the spec: URL-safe encoding of the full address. -/
def percentEncode (s : String) : String :=
  String.join (s.data.map percentEncodeChar)

/-- Autoconfig provider dialect (`configure/mod.rs`,
`AutoconfigProvider`). -/
inductive AutoconfigProvider where
  | Mozilla
  | Outlook
deriving DecidableEq, Repr

/-- One online discovery source (`configure/mod.rs`,
`AutoconfigSource`). -/
structure AutoconfigSource where
  provider : AutoconfigProvider
  url : String
deriving DecidableEq, Repr

/-- `AutoconfigSource::all` from `configure/mod.rs`: the five fixed
online discovery endpoints derived from the domain, in priority
order. -/
def AutoconfigSource.all (domain addr : String) : List AutoconfigSource :=
  [{ provider := AutoconfigProvider.Mozilla,
     url := "https://autoconfig." ++ domain
       ++ "/mail/config-v1.1.xml?emailaddress=" ++ addr },
   { provider := AutoconfigProvider.Mozilla,
     url := "https://" ++ domain
       ++ "/.well-known/autoconfig/mail/config-v1.1.xml?emailaddress=" ++ addr },
   { provider := AutoconfigProvider.Outlook,
     url := "https://" ++ domain ++ "/autodiscover/autodiscover.xml" },
   { provider := AutoconfigProvider.Outlook,
     url := "https://autodiscover." ++ domain
       ++ "/autodiscover/autodiscover.xml" },
   { provider := AutoconfigProvider.Mozilla,
     url := "https://autoconfig.thunderbird.net/v1.1/" ++ domain }]

/-- Observable actions of one configuration run: progress events
(`ConfigureProgress`), collaborator calls, and the two writes to the
"notify about wrong password" configuration flag. -/
inductive CEvent where
  | progress (n : Nat)
  | storeAddr (a : String)
  | fetchAttempt (s : AutoconfigSource)
  | imapAttempt (p : ServerLoginParam)
  | smtpAttempt (p : ServerLoginParam)
  | smtpDisconnect
  | configureFolders
  | selectInbox
  | saveConfigured
  | ensureSecretKey
  | clearNotifyBadPw
  | setNotifyBadPw
deriving DecidableEq, Repr

/-- Results of the external collaborators of one run (spec §6):
OAuth2 address resolver, offline provider database, online discovery
fetchers, IMAP/SMTP connectors, and the folder/store/key steps.  A
`fetch` result of `Except.error` stands for any fetch/parse failure. -/
structure Env where
  oauth2_result : Option String
  provider_db : String → Option Provider
  fetch : AutoconfigSource → Except Unit (List ServerParams)
  imap_ok : ServerLoginParam → Bool
  smtp_ok : ServerLoginParam → Bool
  folders_ok : Bool
  select_ok : Bool
  save_ok : Bool
  keygen_ok : Bool

/-- Writing one candidate's fields into the working login parameters
of a protocol, as done at the head of each trial-loop iteration in
`configure` (`configure/mod.rs`). -/
def applyCandidate (p : ServerLoginParam) (s : ServerParams) : ServerLoginParam :=
  { p with user := s.username, server := s.hostname,
           port := s.port, security := s.socket }

/-- The connection trial loop of `configure` (`configure/mod.rs`) for
one protocol: walk the candidate list in order, write each candidate
into the working parameters, attempt a connection
(`try_imap_one_param` / `try_smtp_one_param`), stop at the first
success.  Returns the attempted parameter sets in order, the final
working parameters, and whether a connection succeeded. -/
def try_server_loop (ok : ServerLoginParam → Bool) (p : ServerLoginParam) :
    List ServerParams → List ServerLoginParam × ServerLoginParam × Bool
  | [] => ([], p, false)
  | s :: rest =>
    let q := applyCandidate p s
    if ok q then
      ([q], q, true)
    else
      let r := try_server_loop ok q rest
      (q :: r.1, r.2.1, r.2.2)

/-- `get_autoconfig`'s source loop (`configure/mod.rs`): fetch each
source in order, emit one progress checkpoint per attempted source
(advancing by 10), and stop at the first fetch-and-parse success. -/
def get_autoconfig_go (fetch : AutoconfigSource → Except Unit (List ServerParams)) :
    List AutoconfigSource → Nat → List CEvent × Option (List ServerParams)
  | [], _ => ([], none)
  | src :: rest, prog =>
    let evs := [CEvent.fetchAttempt src, CEvent.progress prog]
    match fetch src with
    | Except.ok res => (evs, some res)
    | Except.error _ =>
      let r := get_autoconfig_go fetch rest (prog + 10)
      (evs ++ r.1, r.2)

/-- `get_autoconfig` from `configure/mod.rs`: the online discovery
cascade over the five fixed sources, starting at progress 300. -/
def get_autoconfig (fetch : AutoconfigSource → Except Unit (List ServerParams))
    (domain urlencoded : String) : List CEvent × Option (List ServerParams) :=
  get_autoconfig_go fetch (AutoconfigSource.all domain urlencoded) 300

/-- The "no advanced parameters entered" test of `configure`
(`configure/mod.rs`): every hostname, port and username blank and both
security modes `Automatic`. -/
def blankAdvanced (p : LoginParam) : Bool :=
  p.imap.server.isEmpty && p.imap.port == 0
    && p.imap.security == Socket.Automatic && p.imap.user.isEmpty
    && p.smtp.server.isEmpty && p.smtp.port == 0
    && p.smtp.security == Socket.Automatic && p.smtp.user.isEmpty

/-- The fallback candidate list built from the raw user-entered
parameters when no autoconfiguration was found (`configure/mod.rs`). -/
def defaultServers (p : LoginParam) : List ServerParams :=
  [{ protocol := Protocol.IMAP, hostname := p.imap.server,
     port := p.imap.port, socket := p.imap.security,
     username := p.imap.user },
   { protocol := Protocol.SMTP, hostname := p.smtp.server,
     port := p.smtp.port, socket := p.smtp.security,
     username := p.smtp.user }]

/-- Step 1 of `configure` (`configure/mod.rs`): progress 1, basic
validation of address and password, SMTP-password defaulting, and the
OAuth2 canonical-address resolution bracket, ending with the address
parse. -/
def startPhase (env : Env) (param0 : LoginParam) :
    List CEvent × Except String (LoginParam × EmailAddr) :=
  let evs : List CEvent := [CEvent.progress 1]
  if param0.addr.isEmpty then
    (evs, Except.error "Please enter an email address.")
  else if param0.imap.password.isEmpty then
    (evs, Except.error "Please enter a password.")
  else
    let param1 :=
      if param0.smtp.password.isEmpty then
        { param0 with smtp := { param0.smtp with password := param0.imap.password } }
      else param0
    let step2 :=
      if param1.oauth2 then
        match env.oauth2_result with
        | some a =>
          ([CEvent.progress 10, CEvent.storeAddr a, CEvent.progress 20],
           { param1 with addr := a })
        | none => ([CEvent.progress 10, CEvent.progress 20], param1)
      else ([], param1)
    match parseEmailAddress step2.2.addr with
    | none => (evs ++ step2.1, Except.error "Bad email-address")
    | some ea => (evs ++ step2.1, Except.ok (step2.2, ea))

/-- Step 2 of `configure` (`configure/mod.rs`): when the user entered
no advanced parameters, consult the offline provider database and then
the online discovery cascade; otherwise skip autoconfiguration. -/
def autocfgPhase (env : Env) (param2 : LoginParam) (domain urlenc : String) :
    List CEvent × Option (List ServerParams) :=
  if blankAdvanced param2 then
    match get_offline_autoconfig env.provider_db param2.addr with
    | some servers => ([], some servers)
    | none => get_autoconfig env.fetch domain urlenc
  else ([], none)

/-- Steps 3–6 of `configure` (`configure/mod.rs`): the IMAP trial loop
from progress 600, the SMTP trial loop from progress 750 (with an
immediate disconnect on success), folder configuration and INBOX
selection from progress 900, persisting the configuration at 910, and
key generation at 920, ending at progress 940. -/
def trialsPhase (env : Env) (param : LoginParam) (expanded : List ServerParams) :
    List CEvent × Except String LoginParam :=
  let imapCands := expanded.filter (fun s => s.protocol == Protocol.IMAP)
  let ri := try_server_loop env.imap_ok param.imap imapCands
  let param := { param with imap := ri.2.1 }
  let evs1 : List CEvent :=
    CEvent.progress 600 :: ri.1.map CEvent.imapAttempt
  if !ri.2.2 then
    (evs1, Except.error "IMAP autoconfig did not succeed")
  else
    let smtpCands := expanded.filter (fun s => s.protocol == Protocol.SMTP)
    let rs := try_server_loop env.smtp_ok param.smtp smtpCands
    let param := { param with smtp := rs.2.1 }
    let evs2 := evs1 ++ CEvent.progress 750 :: rs.1.map CEvent.smtpAttempt
      ++ (if rs.2.2 then [CEvent.smtpDisconnect] else [])
    if !rs.2.2 then
      (evs2, Except.error "SMTP autoconfig did not succeed")
    else
      let evs3 := evs2 ++ [CEvent.progress 900, CEvent.configureFolders]
      if !env.folders_ok then
        (evs3, Except.error "could not configure folders")
      else
        let evs4 := evs3 ++ [CEvent.selectInbox]
        if !env.select_ok then
          (evs4, Except.error "could not read INBOX status")
        else
          let evs5 := evs4 ++ [CEvent.progress 910, CEvent.saveConfigured]
          if !env.save_ok then
            (evs5, Except.error "could not save configuration")
          else
            let evs6 := evs5 ++ [CEvent.progress 920, CEvent.ensureSecretKey]
            if !env.keygen_ok then
              (evs6, Except.error "could not generate key")
            else
              (evs6 ++ [CEvent.progress 940], Except.ok param)

/-- The free function `configure` from `configure/mod.rs`: validation
and OAuth2 resolution, progress 200, the autoconfig cascade, progress
500, candidate expansion, and the trial/finish phase. -/
def configure (env : Env) (param0 : LoginParam) :
    List CEvent × Except String LoginParam :=
  match startPhase env param0 with
  | (evs0, Except.error e) => (evs0, Except.error e)
  | (evs0, Except.ok pe) =>
    let param2 := pe.1
    let urlenc := percentEncode param2.addr
    let ac := autocfgPhase env param2 pe.2.domain urlenc
    let evs1 := evs0 ++ CEvent.progress 200 :: ac.1 ++ [CEvent.progress 500]
    let servers := ac.2.getD (defaultServers param2)
    let expanded := expandServers param2.addr pe.2.domain servers
    let tr := trialsPhase env param2 expanded
    (evs1 ++ tr.1, tr.2)

/-- `Context::inner_configure` from `configure/mod.rs`: run
`configure`, clear the "notify about wrong password" flag, then on
success re-set it and emit terminal progress 1000, and on failure emit
terminal progress 0.  (The provider `config_defaults` application in
between touches neither progress nor this flag and is omitted; the
configuration store writes are modelled as infallible collaborator
calls.) -/
def inner_configure (env : Env) (param0 : LoginParam) :
    List CEvent × Except String Unit :=
  match configure env param0 with
  | (evs, Except.ok _) =>
    (evs ++ [CEvent.clearNotifyBadPw, CEvent.setNotifyBadPw, CEvent.progress 1000],
     Except.ok ())
  | (evs, Except.error e) =>
    (evs ++ [CEvent.clearNotifyBadPw, CEvent.progress 0], Except.error e)

/-- The context state read and written by `Context::configure`:
whether the scheduler is running, whether the database is open, and
whether the single-flight ongoing-process slot is held. -/
structure CtxState where
  scheduler_running : Bool
  sql_open : Bool
  ongoing_busy : Bool
deriving DecidableEq, Repr

/-- `Context::configure` from `configure/mod.rs`: the two
precondition checks, single-flight slot allocation, the race of the
work against the cancellation signal, and the unconditional slot
release.  The slot (`alloc_ongoing`/`free_ongoing`, in `context.rs`,
not among these sources) is modelled from the spec: allocation fails
when the slot is already held and the slot is released when the run
ends.  Cancellation is modelled by its cut position: `cancel = some k`
means the cancellation side wins after the first `k` events of the
work side; the work side's terminal emit-and-return is one atomic
poll, so a winning cancellation observes a cut strictly before the
final work event, emits progress 0 and returns a non-error. -/
def configureOuter (st : CtxState) (env : Env) (param0 : LoginParam)
    (cancel : Option Nat) : List CEvent × Except String Unit × CtxState :=
  if st.scheduler_running then
    ([], Except.error "cannot configure, already running", st)
  else if !st.sql_open then
    ([], Except.error "cannot configure, database not opened.", st)
  else if st.ongoing_busy then
    ([], Except.error "There is already another ongoing process running", st)
  else
    let st1 : CtxState := { st with ongoing_busy := true }
    let r := inner_configure env param0
    let out : List CEvent × Except String Unit :=
      match cancel with
      | some k =>
        if k < r.1.length then
          (r.1.take k ++ [CEvent.progress 0], Except.ok ())
        else
          (r.1, r.2)
      | none => (r.1, r.2)
    (out.1, out.2, { st1 with ongoing_busy := false })

/-- The progress values carried by an event list, in emission order. -/
def progressOf (evs : List CEvent) : List Nat :=
  evs.filterMap (fun e =>
    match e with
    | CEvent.progress n => some n
    | _ => none)

/-- The IMAP connection attempts recorded in an event list. -/
def imapAttemptsOf (evs : List CEvent) : List ServerLoginParam :=
  evs.filterMap (fun e =>
    match e with
    | CEvent.imapAttempt p => some p
    | _ => none)

/-- The SMTP connection attempts recorded in an event list. -/
def smtpAttemptsOf (evs : List CEvent) : List ServerLoginParam :=
  evs.filterMap (fun e =>
    match e with
    | CEvent.smtpAttempt p => some p
    | _ => none)

@[simp] theorem progressOf_append (a b : List CEvent) :
    progressOf (a ++ b) = progressOf a ++ progressOf b := by
  simp [progressOf]

theorem applyCandidate_twice (p : ServerLoginParam) (s t : ServerParams) :
    applyCandidate (applyCandidate p s) t = applyCandidate p t := rfl

/-- Characterization of the trial loop: the attempted parameter sets
are the candidates (in order, with their fields written into the
working parameters) up to and including the first success; the loop
succeeds exactly when some candidate connects; and on success the
working parameters are the first successful candidate's. -/
theorem try_server_loop_spec (ok : ServerLoginParam → Bool)
    (p : ServerLoginParam) (cs : List ServerParams) :
    (try_server_loop ok p cs).1 =
        ((cs.map (applyCandidate p)).takeWhile (fun q => !ok q))
          ++ ((cs.map (applyCandidate p)).find? ok).toList
    ∧ (try_server_loop ok p cs).2.2 = ((cs.map (applyCandidate p)).find? ok).isSome
    ∧ (∀ w, (cs.map (applyCandidate p)).find? ok = some w →
        (try_server_loop ok p cs).2.1 = w) := by
  induction cs generalizing p with
  | nil => simp [try_server_loop]
  | cons s rest ih =>
    have hmap : rest.map (applyCandidate (applyCandidate p s))
        = rest.map (applyCandidate p) :=
      List.map_congr_left (fun t _ => applyCandidate_twice p s t)
    by_cases h : ok (applyCandidate p s)
    · simp only [try_server_loop, h, if_true, List.map_cons]
      rw [List.takeWhile_cons_of_neg (by simp [h]),
        List.find?_cons_of_pos _ h]
      simp
    · have hq : ok (applyCandidate p s) = false := by simpa using h
      have ihs := ih (applyCandidate p s)
      rw [hmap] at ihs
      simp only [try_server_loop, hq, Bool.false_eq_true, if_false,
        List.map_cons]
      rw [List.takeWhile_cons_of_pos (by simp [hq]),
        List.find?_cons_of_neg _ (by simp [hq])]
      refine ⟨?_, ihs.2.1, ihs.2.2⟩
      rw [ihs.1, List.cons_append]

@[simp] theorem imapAttemptsOf_append (a b : List CEvent) :
    imapAttemptsOf (a ++ b) = imapAttemptsOf a ++ imapAttemptsOf b := by
  simp [imapAttemptsOf]

@[simp] theorem smtpAttemptsOf_append (a b : List CEvent) :
    smtpAttemptsOf (a ++ b) = smtpAttemptsOf a ++ smtpAttemptsOf b := by
  simp [smtpAttemptsOf]

@[simp] theorem imapAttemptsOf_map_imap (l : List ServerLoginParam) :
    imapAttemptsOf (l.map CEvent.imapAttempt) = l := by
  induction l <;> simp_all [imapAttemptsOf]

@[simp] theorem imapAttemptsOf_map_smtp (l : List ServerLoginParam) :
    imapAttemptsOf (l.map CEvent.smtpAttempt) = [] := by
  induction l <;> simp_all [imapAttemptsOf]

@[simp] theorem smtpAttemptsOf_map_smtp (l : List ServerLoginParam) :
    smtpAttemptsOf (l.map CEvent.smtpAttempt) = l := by
  induction l <;> simp_all [smtpAttemptsOf]

@[simp] theorem smtpAttemptsOf_map_imap (l : List ServerLoginParam) :
    smtpAttemptsOf (l.map CEvent.imapAttempt) = [] := by
  induction l <;> simp_all [smtpAttemptsOf]

@[simp] theorem imapAttemptsOf_cons_progress (n : Nat) (l : List CEvent) :
    imapAttemptsOf (CEvent.progress n :: l) = imapAttemptsOf l := by
  simp [imapAttemptsOf]

@[simp] theorem smtpAttemptsOf_cons_progress (n : Nat) (l : List CEvent) :
    smtpAttemptsOf (CEvent.progress n :: l) = smtpAttemptsOf l := by
  simp [smtpAttemptsOf]

@[simp] theorem imapAttemptsOf_cons_disc (l : List CEvent) :
    imapAttemptsOf (CEvent.smtpDisconnect :: l) = imapAttemptsOf l := by
  simp [imapAttemptsOf]

@[simp] theorem smtpAttemptsOf_cons_disc (l : List CEvent) :
    smtpAttemptsOf (CEvent.smtpDisconnect :: l) = smtpAttemptsOf l := by
  simp [smtpAttemptsOf]

/-- Shape of the trial/finish phase when both trial loops succeed:
the events start with the IMAP attempts, then the SMTP attempts, then
the immediate disconnect, followed by a tail of folder/store/key
events containing no attempts and no further disconnect; the result is
either full success carrying both winning parameter sets or an error
from one of the finishing steps. -/
theorem trialsPhase_shape_success (env : Env) (param : LoginParam)
    (expanded : List ServerParams)
    (hri : (try_server_loop env.imap_ok param.imap
        (expanded.filter (fun s => s.protocol == Protocol.IMAP))).2.2 = true)
    (hrs : (try_server_loop env.smtp_ok param.smtp
        (expanded.filter (fun s => s.protocol == Protocol.SMTP))).2.2 = true) :
    ∃ tail res,
      trialsPhase env param expanded =
        (CEvent.progress 600 ::
          ((try_server_loop env.imap_ok param.imap
              (expanded.filter (fun s => s.protocol == Protocol.IMAP))).1.map
            CEvent.imapAttempt)
          ++ CEvent.progress 750 ::
            ((try_server_loop env.smtp_ok param.smtp
                (expanded.filter (fun s => s.protocol == Protocol.SMTP))).1.map
              CEvent.smtpAttempt)
          ++ CEvent.smtpDisconnect :: tail, res)
      ∧ imapAttemptsOf tail = []
      ∧ smtpAttemptsOf tail = []
      ∧ CEvent.smtpDisconnect ∉ tail
      ∧ (res = Except.ok
            { param with
                imap := (try_server_loop env.imap_ok param.imap
                  (expanded.filter (fun s => s.protocol == Protocol.IMAP))).2.1,
                smtp := (try_server_loop env.smtp_ok param.smtp
                  (expanded.filter (fun s => s.protocol == Protocol.SMTP))).2.1 }
          ∨ ∃ e, res = Except.error e) := by
  cases hf : env.folders_ok with
  | false =>
    exact ⟨[CEvent.progress 900, CEvent.configureFolders],
      Except.error "could not configure folders",
      by simp [trialsPhase, hri, hrs, hf],
      by simp [imapAttemptsOf], by simp [smtpAttemptsOf], by simp,
      Or.inr ⟨_, rfl⟩⟩
  | true =>
    cases hsel : env.select_ok with
    | false =>
      exact ⟨[CEvent.progress 900, CEvent.configureFolders, CEvent.selectInbox],
        Except.error "could not read INBOX status",
        by simp [trialsPhase, hri, hrs, hf, hsel],
        by simp [imapAttemptsOf], by simp [smtpAttemptsOf], by simp,
        Or.inr ⟨_, rfl⟩⟩
    | true =>
      cases hsv : env.save_ok with
      | false =>
        exact ⟨[CEvent.progress 900, CEvent.configureFolders, CEvent.selectInbox,
          CEvent.progress 910, CEvent.saveConfigured],
          Except.error "could not save configuration",
          by simp [trialsPhase, hri, hrs, hf, hsel, hsv],
          by simp [imapAttemptsOf], by simp [smtpAttemptsOf], by simp,
          Or.inr ⟨_, rfl⟩⟩
      | true =>
        cases hk : env.keygen_ok with
        | false =>
          exact ⟨[CEvent.progress 900, CEvent.configureFolders, CEvent.selectInbox,
            CEvent.progress 910, CEvent.saveConfigured,
            CEvent.progress 920, CEvent.ensureSecretKey],
            Except.error "could not generate key",
            by simp [trialsPhase, hri, hrs, hf, hsel, hsv, hk],
            by simp [imapAttemptsOf], by simp [smtpAttemptsOf], by simp,
            Or.inr ⟨_, rfl⟩⟩
        | true =>
          exact ⟨[CEvent.progress 900, CEvent.configureFolders, CEvent.selectInbox,
            CEvent.progress 910, CEvent.saveConfigured,
            CEvent.progress 920, CEvent.ensureSecretKey,
            CEvent.progress 940],
            Except.ok { param with
              imap := (try_server_loop env.imap_ok param.imap
                (expanded.filter (fun s => s.protocol == Protocol.IMAP))).2.1,
              smtp := (try_server_loop env.smtp_ok param.smtp
                (expanded.filter (fun s => s.protocol == Protocol.SMTP))).2.1 },
            by simp [trialsPhase, hri, hrs, hf, hsel, hsv, hk],
            by simp [imapAttemptsOf], by simp [smtpAttemptsOf], by simp,
            Or.inl rfl⟩

/-- C4: the connection trial contract of `configure`'s trial loops.
With `imapPs`/`smtpPs` the per-protocol candidate lists written into
the working login parameters, the attempted IMAP parameter sets are
exactly the candidates in list order up to and including the first
success; exhausting the IMAP list fails the run with "IMAP autoconfig
did not succeed" (and SMTP is never attempted); on IMAP success the
SMTP candidates are likewise attempted in order up to the first
success, exhaustion failing with "SMTP autoconfig did not succeed"; a
successful run keeps the first successful candidate of each protocol
in the returned login parameters; and an SMTP disconnect happens
exactly on SMTP trial success. -/
theorem trial_loop_contract (env : Env) (param : LoginParam)
    (expanded : List ServerParams) :
    imapAttemptsOf (trialsPhase env param expanded).1 =
        (((expanded.filter (fun s => s.protocol == Protocol.IMAP)).map
            (applyCandidate param.imap)).takeWhile (fun q => !env.imap_ok q))
          ++ (((expanded.filter (fun s => s.protocol == Protocol.IMAP)).map
            (applyCandidate param.imap)).find? env.imap_ok).toList
    ∧ ((((expanded.filter (fun s => s.protocol == Protocol.IMAP)).map
          (applyCandidate param.imap)).find? env.imap_ok = none →
        (trialsPhase env param expanded).2 =
            Except.error "IMAP autoconfig did not succeed"
          ∧ smtpAttemptsOf (trialsPhase env param expanded).1 = []))
    ∧ ((((expanded.filter (fun s => s.protocol == Protocol.IMAP)).map
          (applyCandidate param.imap)).find? env.imap_ok).isSome = true →
        smtpAttemptsOf (trialsPhase env param expanded).1 =
          (((expanded.filter (fun s => s.protocol == Protocol.SMTP)).map
              (applyCandidate param.smtp)).takeWhile (fun q => !env.smtp_ok q))
            ++ (((expanded.filter (fun s => s.protocol == Protocol.SMTP)).map
              (applyCandidate param.smtp)).find? env.smtp_ok).toList)
    ∧ ((((expanded.filter (fun s => s.protocol == Protocol.IMAP)).map
          (applyCandidate param.imap)).find? env.imap_ok).isSome = true →
        ((expanded.filter (fun s => s.protocol == Protocol.SMTP)).map
          (applyCandidate param.smtp)).find? env.smtp_ok = none →
        (trialsPhase env param expanded).2 =
          Except.error "SMTP autoconfig did not succeed")
    ∧ (∀ w q, ((expanded.filter (fun s => s.protocol == Protocol.IMAP)).map
          (applyCandidate param.imap)).find? env.imap_ok = some w →
        (trialsPhase env param expanded).2 = Except.ok q → q.imap = w)
    ∧ (∀ w q, ((expanded.filter (fun s => s.protocol == Protocol.SMTP)).map
          (applyCandidate param.smtp)).find? env.smtp_ok = some w →
        (trialsPhase env param expanded).2 = Except.ok q → q.smtp = w)
    ∧ (CEvent.smtpDisconnect ∈ (trialsPhase env param expanded).1 ↔
        ((((expanded.filter (fun s => s.protocol == Protocol.IMAP)).map
            (applyCandidate param.imap)).find? env.imap_ok).isSome = true
          ∧ (((expanded.filter (fun s => s.protocol == Protocol.SMTP)).map
            (applyCandidate param.smtp)).find? env.smtp_ok).isSome = true)) := by
  have hI := try_server_loop_spec env.imap_ok param.imap
    (expanded.filter (fun s => s.protocol == Protocol.IMAP))
  have hS := try_server_loop_spec env.smtp_ok param.smtp
    (expanded.filter (fun s => s.protocol == Protocol.SMTP))
  cases hri : (try_server_loop env.imap_ok param.imap
      (expanded.filter (fun s => s.protocol == Protocol.IMAP))).2.2 with
  | false =>
    have hfind : ((expanded.filter (fun s => s.protocol == Protocol.IMAP)).map
        (applyCandidate param.imap)).find? env.imap_ok = none := by
      have h1 := hI.2.1
      rw [hri] at h1
      cases hx : ((expanded.filter (fun s => s.protocol == Protocol.IMAP)).map
          (applyCandidate param.imap)).find? env.imap_ok with
      | none => rfl
      | some w => rw [hx] at h1; simp at h1
    have hT : trialsPhase env param expanded =
        (CEvent.progress 600 ::
          ((try_server_loop env.imap_ok param.imap
              (expanded.filter (fun s => s.protocol == Protocol.IMAP))).1.map
            CEvent.imapAttempt),
         Except.error "IMAP autoconfig did not succeed") := by
      simp only [trialsPhase]
      rw [hri]
      rfl
    refine ⟨?_, ?_, ?_, ?_, ?_, ?_, ?_⟩
    · rw [hT, hfind]
      simp only [imapAttemptsOf_cons_progress, imapAttemptsOf_map_imap,
        Option.toList_none, List.append_nil]
      rw [hI.1, hfind]
      simp only [Option.toList_none, List.append_nil]
    · intro _
      rw [hT]
      exact ⟨rfl, by
        simp only [smtpAttemptsOf_cons_progress, smtpAttemptsOf_map_imap]⟩
    · intro hcontra
      rw [hfind] at hcontra
      simp at hcontra
    · intro hcontra
      rw [hfind] at hcontra
      simp at hcontra
    · intro w q hw
      rw [hfind] at hw
      exact absurd hw (by simp)
    · intro w q _ hq
      rw [hT] at hq
      exact absurd hq (by simp)
    · rw [hT]
      constructor
      · intro hmem
        exfalso
        revert hmem
        simp
      · rintro ⟨hcontra, _⟩
        rw [hfind] at hcontra
        simp at hcontra
  | true =>
    have hfindI : (((expanded.filter (fun s => s.protocol == Protocol.IMAP)).map
        (applyCandidate param.imap)).find? env.imap_ok).isSome = true := by
      rw [← hI.2.1, hri]
    cases hrs : (try_server_loop env.smtp_ok param.smtp
        (expanded.filter (fun s => s.protocol == Protocol.SMTP))).2.2 with
    | false =>
      have hfindS : ((expanded.filter (fun s => s.protocol == Protocol.SMTP)).map
          (applyCandidate param.smtp)).find? env.smtp_ok = none := by
        have h1 := hS.2.1
        rw [hrs] at h1
        cases hx : ((expanded.filter (fun s => s.protocol == Protocol.SMTP)).map
            (applyCandidate param.smtp)).find? env.smtp_ok with
        | none => rfl
        | some w => rw [hx] at h1; simp at h1
      have hT : trialsPhase env param expanded =
          ((CEvent.progress 600 ::
            ((try_server_loop env.imap_ok param.imap
                (expanded.filter (fun s => s.protocol == Protocol.IMAP))).1.map
              CEvent.imapAttempt))
            ++ CEvent.progress 750 ::
              (((try_server_loop env.smtp_ok param.smtp
                  (expanded.filter (fun s => s.protocol == Protocol.SMTP))).1.map
                CEvent.smtpAttempt) ++ []),
           Except.error "SMTP autoconfig did not succeed") := by
        simp only [trialsPhase]
        rw [hri, hrs]
        simp
      refine ⟨?_, ?_, ?_, ?_, ?_, ?_, ?_⟩
      · rw [hT]
        simp only [imapAttemptsOf_append, imapAttemptsOf_cons_progress,
          imapAttemptsOf_map_imap, imapAttemptsOf_map_smtp, List.append_nil]
        rw [hI.1]
      · intro hcontra
        rw [hcontra] at hfindI
        simp at hfindI
      · intro _
        rw [hT]
        simp only [smtpAttemptsOf_append, smtpAttemptsOf_cons_progress,
          smtpAttemptsOf_map_imap, smtpAttemptsOf_map_smtp, List.append_nil,
          List.nil_append]
        rw [hS.1]
      · intro _ _
        rw [hT]
      · intro w q hw hq
        rw [hT] at hq
        exact absurd hq (by simp)
      · intro w q hw hq
        rw [hfindS] at hw
        exact absurd hw (by simp)
      · rw [hT]
        constructor
        · intro hmem
          exfalso
          revert hmem
          simp
        · rintro ⟨_, hcontra⟩
          rw [hfindS] at hcontra
          simp at hcontra
    | true =>
      have hfindS : (((expanded.filter (fun s => s.protocol == Protocol.SMTP)).map
          (applyCandidate param.smtp)).find? env.smtp_ok).isSome = true := by
        rw [← hS.2.1, hrs]
      obtain ⟨tail, res, heq, htI, htS, htD, hres⟩ :=
        trialsPhase_shape_success env param expanded hri hrs
      refine ⟨?_, ?_, ?_, ?_, ?_, ?_, ?_⟩
      · rw [heq]
        simp only [imapAttemptsOf_cons_progress, imapAttemptsOf_append,
          imapAttemptsOf_map_imap, imapAttemptsOf_map_smtp,
          imapAttemptsOf_cons_disc, htI, List.append_nil]
        rw [hI.1]
      · intro h
        rw [h] at hfindI
        simp at hfindI
      · intro _
        rw [heq]
        simp only [smtpAttemptsOf_cons_progress, smtpAttemptsOf_append,
          smtpAttemptsOf_map_imap, smtpAttemptsOf_map_smtp,
          smtpAttemptsOf_cons_disc, htS, List.append_nil, List.nil_append]
        rw [hS.1]
      · intro _ h
        rw [h] at hfindS
        simp at hfindS
      · intro w q hw hq
        rw [heq] at hq
        rcases hres with hok | ⟨e, he⟩
        · rw [hok] at hq
          cases hq
          exact hI.2.2 w hw
        · rw [he] at hq
          exact absurd hq (by simp)
      · intro w q hw hq
        rw [heq] at hq
        rcases hres with hok | ⟨e, he⟩
        · rw [hok] at hq
          cases hq
          exact hS.2.2 w hw
        · rw [he] at hq
          exact absurd hq (by simp)
      · rw [heq]
        constructor
        · intro _
          exact ⟨hfindI, hfindS⟩
        · intro _
          simp

/-- Collaborator results in which every network interaction fails:
no OAuth2 resolution, no offline provider record, every online fetch
fails, every connection attempt fails. -/
def envAllFail : Env :=
  { oauth2_result := none,
    provider_db := fun _ => none,
    fetch := fun _ => Except.error (),
    imap_ok := fun _ => false,
    smtp_ok := fun _ => false,
    folders_ok := true, select_ok := true, save_ok := true,
    keygen_ok := true }

/-- Collaborator results in which every connection attempt and every
finishing step succeeds, while discovery sources stay silent. -/
def envAllOk : Env :=
  { envAllFail with
      imap_ok := fun _ => true,
      smtp_ok := fun _ => true }

/-- Collaborator results in which the first online discovery source
succeeds with an empty parsed server list. -/
def envEmptyAutoconfig : Env :=
  { envAllFail with fetch := fun _ => Except.ok [] }

/-- A login parameter set with no advanced parameters entered. -/
def blankParam : LoginParam :=
  { addr := "a@b.c",
    imap := { server := "", port := 0, security := Socket.Automatic,
              user := "", password := "pw", certificate_checks := 0 },
    smtp := { server := "", port := 0, security := Socket.Automatic,
              user := "", password := "", certificate_checks := 0 },
    oauth2 := false }

/-- A login parameter set with every advanced parameter specified. -/
def fullParam : LoginParam :=
  { addr := "a@b.c",
    imap := { server := "h", port := 1, security := Socket.SSL,
              user := "u", password := "pw", certificate_checks := 0 },
    smtp := { server := "h", port := 1, security := Socket.SSL,
              user := "u", password := "", certificate_checks := 0 },
    oauth2 := false }

/-- Witness for C4: with every connection attempt failing, the trial
phase fails with the IMAP hard error and records no SMTP attempt. -/
theorem trial_loop_contract_witness :
    (trialsPhase envAllFail blankParam
        (expandServers "a@b.c" "b.c" (defaultServers blankParam))).2 =
        Except.error "IMAP autoconfig did not succeed"
      ∧ smtpAttemptsOf (trialsPhase envAllFail blankParam
          (expandServers "a@b.c" "b.c" (defaultServers blankParam))).1 = [] :=
  (trial_loop_contract envAllFail blankParam
    (expandServers "a@b.c" "b.c" (defaultServers blankParam))).2.1 (by decide)

theorem expand_usernames_ne_nil (s : ServerParams) (addr : String) :
    s.expand_usernames addr ≠ [] := by
  rcases s with ⟨proto, h, port, sock, u⟩
  by_cases hc : strContains addr '@' <;>
    by_cases hu : u.isEmpty <;>
      simp [ServerParams.expand_usernames, hc, hu]

theorem expand_hostnames_ne_nil (s : ServerParams) (domain : String) :
    s.expand_hostnames domain ≠ [] := by
  rcases s with ⟨proto, h, port, sock, u⟩
  by_cases hh : h.isEmpty <;> simp [ServerParams.expand_hostnames, hh]

theorem expand_ports_ne_nil (s : ServerParams) :
    s.expand_ports ≠ [] := by
  rcases s with ⟨proto, h, port, sock, u⟩
  by_cases hp : port = 0 <;> cases sock <;> cases proto <;>
    simp [ServerParams.expand_ports, hp]

theorem expand_usernames_protocol (s : ServerParams) (addr : String) :
    ∀ t ∈ s.expand_usernames addr, t.protocol = s.protocol := by
  intro t ht
  rcases s with ⟨proto, h, port, sock, u⟩
  by_cases hc : strContains addr '@' <;>
    by_cases hu : u.isEmpty <;>
      simp [ServerParams.expand_usernames, hc, hu] at ht <;>
      first
      | (rcases ht with ht | ht <;> subst ht <;> rfl)
      | (subst ht; rfl)

theorem expand_hostnames_protocol (s : ServerParams) (domain : String) :
    ∀ t ∈ s.expand_hostnames domain, t.protocol = s.protocol := by
  intro t ht
  rcases s with ⟨proto, h, port, sock, u⟩
  by_cases hh : h.isEmpty <;>
    simp [ServerParams.expand_hostnames, hh] at ht <;>
    first
    | (rcases ht with ht | ht | ht <;> subst ht <;> rfl)
    | (subst ht; rfl)

theorem expand_ports_protocol (s : ServerParams) :
    ∀ t ∈ s.expand_ports, t.protocol = s.protocol := by
  intro t ht
  rcases s with ⟨proto, h, port, sock, u⟩
  by_cases hp : port = 0 <;> cases sock <;> cases proto <;>
    simp [ServerParams.expand_ports, hp] at ht <;>
    first
    | (rcases ht with ht | ht <;> subst ht <;> rfl)
    | (subst ht; rfl)

theorem expandServers_append (addr domain : String) (a b : List ServerParams) :
    expandServers addr domain (a ++ b) =
      expandServers addr domain a ++ expandServers addr domain b := by
  simp [expandServers]

theorem expandServers_singleton_ne_nil (addr domain : String) (s : ServerParams) :
    expandServers addr domain [s] ≠ [] := by
  intro h
  simp only [expandServers, List.flatMap_eq_nil_iff] at h
  rcases List.exists_mem_of_ne_nil _ (expand_usernames_ne_nil s addr) with ⟨u, hu⟩
  rcases List.exists_mem_of_ne_nil _ (expand_hostnames_ne_nil u domain) with ⟨v, hv⟩
  exact expand_ports_ne_nil v
    (h v (by
      simp only [List.mem_flatMap]
      exact ⟨u, by simpa using hu, hv⟩))

theorem expandServers_protocol (addr domain : String) (s : ServerParams) :
    ∀ t ∈ expandServers addr domain [s], t.protocol = s.protocol := by
  intro t ht
  simp only [expandServers, List.mem_flatMap, List.flatMap_cons,
    List.flatMap_nil, List.append_nil] at ht
  rcases ht with ⟨v, ⟨u, hu, hv⟩, ht⟩
  calc t.protocol = v.protocol := expand_ports_protocol v t ht
    _ = u.protocol := expand_hostnames_protocol u domain v hv
    _ = s.protocol := expand_usernames_protocol s addr u hu

/-- C3 counterexample: a run in which the online cascade's first
source succeeds with an empty parsed list; the expanded per-protocol
candidate list of that run is empty and the run fails, refuting
"the expanded per-protocol list is non-empty in every run". -/
theorem expansion_empty_run :
    (expandServers "a@b.c" "b.c"
        ((autocfgPhase envEmptyAutoconfig blankParam "b.c"
            (percentEncode "a@b.c")).2.getD (defaultServers blankParam))).filter
        (fun t => t.protocol == Protocol.IMAP) = []
      ∧ (configure envEmptyAutoconfig blankParam).2 =
          Except.error "IMAP autoconfig did not succeed" := by
  exact ⟨by decide, rfl⟩

/-- C3 (amended): each expansion function always returns at least one
candidate, a fully-specified descriptor is passed through the whole
pipeline unchanged as a singleton, and in runs that fall back to the
raw user-entered parameters both per-protocol candidate lists are
non-empty; only a cascade-provided list lacking one protocol's
descriptors can make a per-protocol list empty. -/
theorem expansion_nonempty (addr domain : String) (s : ServerParams)
    (p : LoginParam) :
    s.expand_usernames addr ≠ []
    ∧ s.expand_hostnames domain ≠ []
    ∧ s.expand_ports ≠ []
    ∧ (s.username ≠ "" → s.hostname ≠ "" → s.port ≠ 0 →
        s.socket ≠ Socket.Automatic → expandServers addr domain [s] = [s])
    ∧ (expandServers addr domain (defaultServers p)).filter
        (fun t => t.protocol == Protocol.IMAP) ≠ []
    ∧ (expandServers addr domain (defaultServers p)).filter
        (fun t => t.protocol == Protocol.SMTP) ≠ [] := by
  refine ⟨expand_usernames_ne_nil s addr, expand_hostnames_ne_nil s domain,
    expand_ports_ne_nil s, ?_, ?_, ?_⟩
  · intro hu hh hp hsock
    have h1 : s.expand_usernames addr = [s] := by
      simp [ServerParams.expand_usernames, String.isEmpty_iff, hu]
    have h2 : s.expand_hostnames domain = [s] := by
      simp [ServerParams.expand_hostnames, String.isEmpty_iff, hh]
    have h3 : s.expand_ports = [s] := by
      cases hs : s.socket <;>
        simp_all [ServerParams.expand_ports, hp]
    simp [expandServers, h1, h2, h3]
  · have hsplit : defaultServers p
        = [(defaultServers p).head (by simp [defaultServers])]
          ++ [(defaultServers p).getLast (by simp [defaultServers])] := by
      simp [defaultServers]
    rw [hsplit, expandServers_append, List.filter_append]
    have hall : (expandServers addr domain
        [(defaultServers p).head (by simp [defaultServers])]).filter
          (fun t => t.protocol == Protocol.IMAP)
        = expandServers addr domain
            [(defaultServers p).head (by simp [defaultServers])] :=
      List.filter_eq_self.mpr (fun t ht => by
        have := expandServers_protocol addr domain _ t ht
        simp [this, defaultServers])
    rw [hall]
    exact List.append_ne_nil_of_left_ne_nil
      (expandServers_singleton_ne_nil addr domain _) _
  · have hsplit : defaultServers p
        = [(defaultServers p).head (by simp [defaultServers])]
          ++ [(defaultServers p).getLast (by simp [defaultServers])] := by
      simp [defaultServers]
    rw [hsplit, expandServers_append, List.filter_append]
    have hall : (expandServers addr domain
        [(defaultServers p).getLast (by simp [defaultServers])]).filter
          (fun t => t.protocol == Protocol.SMTP)
        = expandServers addr domain
            [(defaultServers p).getLast (by simp [defaultServers])] :=
      List.filter_eq_self.mpr (fun t ht => by
        have := expandServers_protocol addr domain _ t ht
        simp [this, defaultServers])
    rw [hall]
    exact List.append_ne_nil_of_right_ne_nil _
      (expandServers_singleton_ne_nil addr domain _)

/-- Witness for C3 (amended): a fully specified descriptor passes
through the pipeline unchanged. -/
theorem expansion_nonempty_witness :
    expandServers "a@b.c" "b.c"
        [{ protocol := Protocol.IMAP, hostname := "h", port := 1,
           socket := Socket.SSL, username := "u" }] =
      [{ protocol := Protocol.IMAP, hostname := "h", port := 1,
         socket := Socket.SSL, username := "u" }] :=
  (expansion_nonempty "a@b.c" "b.c"
    { protocol := Protocol.IMAP, hostname := "h", port := 1,
      socket := Socket.SSL, username := "u" } blankParam).2.2.2.1
    (by decide) (by decide) (by decide) (by decide)

/-- The online discovery sources attempted in an event list. -/
def fetchAttemptsOf (evs : List CEvent) : List AutoconfigSource :=
  evs.filterMap (fun e =>
    match e with
    | CEvent.fetchAttempt s => some s
    | _ => none)

/-- In the cascade loop, the first source whose fetch succeeds wins:
its parsed list — empty or not — is returned and no later source is
attempted. -/
theorem get_autoconfig_go_first_ok
    (fetch : AutoconfigSource → Except Unit (List ServerParams)) :
    ∀ (pre : List AutoconfigSource) (post : List AutoconfigSource)
      (prog : Nat) (s : AutoconfigSource) (l1 : List ServerParams),
      (∀ s2 ∈ pre, fetch s2 = Except.error ()) →
      fetch s = Except.ok l1 →
      (get_autoconfig_go fetch (pre ++ s :: post) prog).2 = some l1
      ∧ fetchAttemptsOf (get_autoconfig_go fetch (pre ++ s :: post) prog).1
          = pre ++ [s] := by
  intro pre
  induction pre with
  | nil =>
    intro post prog s l1 _ hok
    simp only [List.nil_append, get_autoconfig_go, hok]
    exact ⟨by trivial, by simp [fetchAttemptsOf]⟩
  | cons p rest ih =>
    intro post prog s l1 hpre hok
    have hp : fetch p = Except.error () := hpre p (by simp)
    have ihr := ih post (prog + 10) s l1
      (fun s2 hs2 => hpre s2 (by simp [hs2])) hok
    simp only [List.cons_append, get_autoconfig_go, hp]
    refine ⟨ihr.1, ?_⟩
    simp only [fetchAttemptsOf, List.filterMap_append] at ihr ⊢
    simp [ihr.2]

/-- C10: when the first online discovery source's fetch-and-parse
returns `Ok`, `get_autoconfig` stops there — one fetch attempt, one
progress checkpoint — and returns that parsed list even when it is
empty; in that case expansion produces zero candidates, no IMAP
connection is ever attempted, and the run fails with
"IMAP autoconfig did not succeed". -/
theorem first_source_wins_even_empty (env : Env) (param : LoginParam)
    (ea : EmailAddr) (l0 : List ServerParams)
    (h1 : param.oauth2 = false)
    (h2 : param.addr.isEmpty = false)
    (h3 : param.imap.password.isEmpty = false)
    (h4 : parseEmailAddress param.addr = some ea)
    (h5 : blankAdvanced param = true)
    (h6 : get_offline_autoconfig env.provider_db param.addr = none)
    (hfetch : env.fetch
      { provider := AutoconfigProvider.Mozilla,
        url := "https://autoconfig." ++ ea.domain
          ++ "/mail/config-v1.1.xml?emailaddress="
          ++ percentEncode param.addr } = Except.ok l0) :
    (∀ (pre post : List AutoconfigSource) (prog : Nat)
        (s : AutoconfigSource) (l1 : List ServerParams),
      (∀ s2 ∈ pre, env.fetch s2 = Except.error ()) →
      env.fetch s = Except.ok l1 →
      (get_autoconfig_go env.fetch (pre ++ s :: post) prog).2 = some l1
      ∧ fetchAttemptsOf
          (get_autoconfig_go env.fetch (pre ++ s :: post) prog).1
          = pre ++ [s])
    ∧ get_autoconfig env.fetch ea.domain (percentEncode param.addr) =
        ([CEvent.fetchAttempt
            { provider := AutoconfigProvider.Mozilla,
              url := "https://autoconfig." ++ ea.domain
                ++ "/mail/config-v1.1.xml?emailaddress="
                ++ percentEncode param.addr },
          CEvent.progress 300], some l0)
      ∧ (l0 = [] →
          expandServers param.addr ea.domain l0 = []
          ∧ (configure env param).2 =
              Except.error "IMAP autoconfig did not succeed"
          ∧ imapAttemptsOf (configure env param).1 = []) := by
  have hget : get_autoconfig env.fetch ea.domain (percentEncode param.addr) =
      ([CEvent.fetchAttempt
          { provider := AutoconfigProvider.Mozilla,
            url := "https://autoconfig." ++ ea.domain
              ++ "/mail/config-v1.1.xml?emailaddress="
              ++ percentEncode param.addr },
        CEvent.progress 300], some l0) := by
    simp only [get_autoconfig, AutoconfigSource.all, get_autoconfig_go, hfetch]
  refine ⟨get_autoconfig_go_first_ok env.fetch, hget, ?_⟩
  intro hl0
  subst hl0
  by_cases hsp : param.smtp.password.isEmpty
  case pos =>
    have hstart : startPhase env param =
        ([CEvent.progress 1],
         Except.ok ({ param with
           smtp := { param.smtp with password := param.imap.password } }, ea)) := by
      simp [startPhase, h1, h2, h3, h4, hsp]
    have hblank : blankAdvanced { param with
        smtp := { param.smtp with password := param.imap.password } } = true := by
      simp only [blankAdvanced] at h5 ⊢
      exact h5
    have hauto : autocfgPhase env
        { param with
          smtp := { param.smtp with password := param.imap.password } }
        ea.domain (percentEncode param.addr) =
        ([CEvent.fetchAttempt
            { provider := AutoconfigProvider.Mozilla,
              url := "https://autoconfig." ++ ea.domain
                ++ "/mail/config-v1.1.xml?emailaddress="
                ++ percentEncode param.addr },
          CEvent.progress 300], some []) := by
      simp only [autocfgPhase, hblank, if_true]
      rw [show ({ param with
          smtp := { param.smtp with password := param.imap.password } }
            : LoginParam).addr = param.addr from rfl, h6]
      exact hget
    simp only [configure, hstart]
    rw [show ({ param with
        smtp := { param.smtp with password := param.imap.password } }
          : LoginParam).addr = param.addr from rfl]
    rw [hauto]
    constructor
    · rfl
    · constructor
      · rfl
      · simp [imapAttemptsOf, trialsPhase, try_server_loop]
  case neg =>
    have hstart : startPhase env param =
        ([CEvent.progress 1], Except.ok (param, ea)) := by
      simp [startPhase, h1, h2, h3, h4, hsp]
    have hauto : autocfgPhase env param ea.domain (percentEncode param.addr) =
        ([CEvent.fetchAttempt
            { provider := AutoconfigProvider.Mozilla,
              url := "https://autoconfig." ++ ea.domain
                ++ "/mail/config-v1.1.xml?emailaddress="
                ++ percentEncode param.addr },
          CEvent.progress 300], some []) := by
      simp only [autocfgPhase, h5, if_true]
      rw [h6]
      exact hget
    simp only [configure, hstart]
    rw [hauto]
    constructor
    · rfl
    · constructor
      · rfl
      · simp [imapAttemptsOf, trialsPhase, try_server_loop]

/-- Witness for C10 at a concrete run: first source returns an empty
Ok list and the run fails with the IMAP hard error. -/
theorem first_source_wins_even_empty_witness :
    expandServers blankParam.addr ("b.c" : String) ([] : List ServerParams) = []
    ∧ (configure envEmptyAutoconfig blankParam).2 =
        Except.error "IMAP autoconfig did not succeed"
    ∧ imapAttemptsOf (configure envEmptyAutoconfig blankParam).1 = [] :=
  (first_source_wins_even_empty envEmptyAutoconfig blankParam
    { localpart := "a", domain := "b.c" } []
    (by decide) (by decide) (by decide) (by decide) (by decide) (by decide)
    rfl).2.2 rfl

/-- Whether an event is one of the two writes to the "notify about
wrong password" configuration flag. -/
def isFlagEvent : CEvent → Bool
  | CEvent.clearNotifyBadPw => true
  | CEvent.setNotifyBadPw => true
  | _ => false

@[simp] theorem noFlag_map_imap (l : List ServerLoginParam) :
    (l.map CEvent.imapAttempt).all (fun e => !isFlagEvent e) = true := by
  induction l <;> simp_all [isFlagEvent]

@[simp] theorem noFlag_map_smtp (l : List ServerLoginParam) :
    (l.map CEvent.smtpAttempt).all (fun e => !isFlagEvent e) = true := by
  induction l <;> simp_all [isFlagEvent]

@[simp] theorem progressOf_map_imap (l : List ServerLoginParam) :
    progressOf (l.map CEvent.imapAttempt) = [] := by
  induction l <;> simp_all [progressOf]

@[simp] theorem progressOf_map_smtp (l : List ServerLoginParam) :
    progressOf (l.map CEvent.smtpAttempt) = [] := by
  induction l <;> simp_all [progressOf]

@[simp] theorem progressOf_nil : progressOf [] = [] := rfl

@[simp] theorem progressOf_cons_progress (n : Nat) (l : List CEvent) :
    progressOf (CEvent.progress n :: l) = n :: progressOf l := by
  simp [progressOf]

@[simp] theorem progressOf_cons_disc (l : List CEvent) :
    progressOf (CEvent.smtpDisconnect :: l) = progressOf l := by
  simp [progressOf]

@[simp] theorem progressOf_cons_folders (l : List CEvent) :
    progressOf (CEvent.configureFolders :: l) = progressOf l := by
  simp [progressOf]

@[simp] theorem progressOf_cons_select (l : List CEvent) :
    progressOf (CEvent.selectInbox :: l) = progressOf l := by
  simp [progressOf]

@[simp] theorem progressOf_cons_save (l : List CEvent) :
    progressOf (CEvent.saveConfigured :: l) = progressOf l := by
  simp [progressOf]

@[simp] theorem progressOf_cons_key (l : List CEvent) :
    progressOf (CEvent.ensureSecretKey :: l) = progressOf l := by
  simp [progressOf]

@[simp] theorem progressOf_cons_clear (l : List CEvent) :
    progressOf (CEvent.clearNotifyBadPw :: l) = progressOf l := by
  simp [progressOf]

@[simp] theorem progressOf_cons_set (l : List CEvent) :
    progressOf (CEvent.setNotifyBadPw :: l) = progressOf l := by
  simp [progressOf]

@[simp] theorem progressOf_cons_fetch (src : AutoconfigSource) (l : List CEvent) :
    progressOf (CEvent.fetchAttempt src :: l) = progressOf l := by
  simp [progressOf]

@[simp] theorem progressOf_cons_store (a : String) (l : List CEvent) :
    progressOf (CEvent.storeAddr a :: l) = progressOf l := by
  simp [progressOf]

/-- The start phase writes no flag and emits increasing progress
values between 1 and 20. -/
theorem startPhase_events (env : Env) (p : LoginParam) :
    ((startPhase env p).1.all (fun e => !isFlagEvent e) = true)
    ∧ List.Pairwise (· ≤ ·) (progressOf (startPhase env p).1)
    ∧ (∀ n ∈ progressOf (startPhase env p).1, 1 ≤ n ∧ n ≤ 20) := by
  simp only [startPhase]
  refine ⟨?_, ?_, ?_⟩ <;>
    (repeat' split) <;>
      first
      | rfl
      | decide
      | (simp [progressOf]; done)
      | (simp [progressOf]; decide)

/-- The online cascade loop writes no flag and emits increasing
progress values between its start value and start plus ten per
source. -/
theorem get_autoconfig_go_events
    (fetch : AutoconfigSource → Except Unit (List ServerParams)) :
    ∀ (srcs : List AutoconfigSource) (prog : Nat),
    ((get_autoconfig_go fetch srcs prog).1.all (fun e => !isFlagEvent e) = true)
    ∧ List.Pairwise (· ≤ ·) (progressOf (get_autoconfig_go fetch srcs prog).1)
    ∧ (∀ n ∈ progressOf (get_autoconfig_go fetch srcs prog).1,
        prog ≤ n ∧ n ≤ prog + 10 * srcs.length) := by
  intro srcs
  induction srcs with
  | nil =>
    intro prog
    exact ⟨rfl, by simp [get_autoconfig_go, progressOf],
      by simp [get_autoconfig_go, progressOf]⟩
  | cons src rest ih =>
    intro prog
    simp only [get_autoconfig_go]
    cases hf : fetch src with
    | ok res =>
      refine ⟨rfl, by simp [progressOf], ?_⟩
      intro n hn
      simp [progressOf] at hn
      subst hn
      omega
    | error err =>
      have ihp := ih (prog + 10)
      refine ⟨?_, ?_, ?_⟩
      · simp only [List.all_append, Bool.and_eq_true]
        exact And.intro rfl ihp.1
      · simp only [progressOf_append]
        have hpp : progressOf [CEvent.fetchAttempt src, CEvent.progress prog]
            = [prog] := by simp [progressOf]
        rw [hpp]
        refine List.pairwise_append.mpr
          ⟨List.pairwise_singleton _ _, ihp.2.1, ?_⟩
        intro a ha b hb
        simp at ha
        subst ha
        have := (ihp.2.2 b hb).1
        omega
      · simp only [progressOf_append]
        intro n hn
        rcases List.mem_append.mp hn with hn | hn
        · simp [progressOf] at hn
          subst hn
          simp only [List.length_cons]
          omega
        · have := ihp.2.2 n hn
          simp only [List.length_cons] at this ⊢
          omega

/-- The autoconfig phase writes no flag and emits increasing progress
values between 300 and 350. -/
theorem autocfgPhase_events (env : Env) (p : LoginParam)
    (domain urlenc : String) :
    ((autocfgPhase env p domain urlenc).1.all (fun e => !isFlagEvent e) = true)
    ∧ List.Pairwise (· ≤ ·) (progressOf (autocfgPhase env p domain urlenc).1)
    ∧ (∀ n ∈ progressOf (autocfgPhase env p domain urlenc).1,
        300 ≤ n ∧ n ≤ 350) := by
  simp only [autocfgPhase]
  split
  · split
    · exact ⟨rfl, by simp [progressOf], by simp [progressOf]⟩
    · have h := get_autoconfig_go_events env.fetch
        (AutoconfigSource.all domain urlenc) 300
      refine ⟨h.1, h.2.1, ?_⟩
      intro n hn
      have := h.2.2 n hn
      simp only [AutoconfigSource.all, List.length_cons,
        List.length_nil] at this
      omega
  · exact ⟨rfl, by simp [progressOf], by simp [progressOf]⟩

set_option maxHeartbeats 1000000 in
/-- The trial/finish phase writes no flag and emits increasing
progress values between 600 and 940. -/
theorem trialsPhase_events (env : Env) (p : LoginParam)
    (expanded : List ServerParams) :
    ((trialsPhase env p expanded).1.all (fun e => !isFlagEvent e) = true)
    ∧ List.Pairwise (· ≤ ·) (progressOf (trialsPhase env p expanded).1)
    ∧ (∀ n ∈ progressOf (trialsPhase env p expanded).1,
        600 ≤ n ∧ n ≤ 940) := by
  simp only [trialsPhase]
  refine ⟨?_, ?_, ?_⟩ <;>
    (repeat' split) <;>
      first
      | (simp [isFlagEvent]; done)
      | (simp only [progressOf_append, progressOf_map_imap,
          progressOf_map_smtp, progressOf_cons_progress, progressOf_cons_disc,
          progressOf_cons_folders, progressOf_cons_select,
          progressOf_cons_save, progressOf_cons_key, progressOf_nil,
          List.cons_append, List.nil_append, List.append_nil];
         decide)

set_option maxHeartbeats 1000000 in
/-- The whole `configure` function writes no flag and emits increasing
progress values between 1 and 940. -/
theorem configure_events (env : Env) (param : LoginParam) :
    ((configure env param).1.all (fun e => !isFlagEvent e) = true)
    ∧ List.Pairwise (· ≤ ·) (progressOf (configure env param).1)
    ∧ (∀ n ∈ progressOf (configure env param).1, 1 ≤ n ∧ n ≤ 940) := by
  have hs := startPhase_events env param
  cases hsp : startPhase env param with
  | mk evs0 r0 =>
    rw [hsp] at hs
    dsimp only at hs
    cases r0 with
    | error e =>
      simp only [configure, hsp]
      exact ⟨hs.1, hs.2.1, fun n hn =>
        ⟨(hs.2.2 n hn).1, le_trans (hs.2.2 n hn).2 (by omega)⟩⟩
    | ok pe =>
      obtain ⟨param2, ea⟩ := pe
      have ha := autocfgPhase_events env param2 ea.domain
        (percentEncode param2.addr)
      have ht := trialsPhase_events env param2
        (expandServers param2.addr ea.domain
          (((autocfgPhase env param2 ea.domain
              (percentEncode param2.addr)).2).getD (defaultServers param2)))
      simp only [configure, hsp]
      refine ⟨?_, ?_, ?_⟩
      · simp only [List.append_assoc, List.cons_append,
          List.singleton_append]
        rw [List.all_eq_true]
        intro x hx
        rcases List.mem_append.mp hx with hx | hx
        · exact List.all_eq_true.mp hs.1 x hx
        · rcases List.mem_cons.mp hx with rfl | hx
          · rfl
          · rcases List.mem_append.mp hx with hx | hx
            · exact List.all_eq_true.mp ha.1 x hx
            · rcases List.mem_cons.mp hx with rfl | hx
              · rfl
              · exact List.all_eq_true.mp ht.1 x hx
      · simp only [progressOf_append, progressOf_cons_progress,
          progressOf_nil, List.append_assoc, List.cons_append,
          List.singleton_append]
        refine List.pairwise_append.mpr ⟨hs.2.1, ?_, ?_⟩
        · refine List.pairwise_cons.mpr ⟨?_, ?_⟩
          · intro b hb
            rcases List.mem_append.mp hb with hb | hb
            · exact le_trans (by omega) (ha.2.2 b hb).1
            · rcases List.mem_cons.mp hb with rfl | hb
              · omega
              · have := (ht.2.2 b hb).1
                omega
          · refine List.pairwise_append.mpr ⟨ha.2.1, ?_, ?_⟩
            · refine List.pairwise_cons.mpr ⟨?_, ht.2.1⟩
              intro b hb
              have := (ht.2.2 b hb).1
              omega
            · intro a haa b hb
              have h350 := (ha.2.2 a haa).2
              rcases List.mem_cons.mp hb with rfl | hb
              · omega
              · have := (ht.2.2 b hb).1
                omega
        · intro a ha0 b hb
          have h20 := (hs.2.2 a ha0).2
          rcases List.mem_cons.mp hb with rfl | hb
          · omega
          · rcases List.mem_append.mp hb with hb | hb
            · have := (ha.2.2 b hb).1
              omega
            · rcases List.mem_cons.mp hb with rfl | hb
              · omega
              · have := (ht.2.2 b hb).1
                omega
      · simp only [progressOf_append, progressOf_cons_progress,
          progressOf_nil, List.append_assoc, List.cons_append,
          List.singleton_append]
        intro n hn
        rcases List.mem_append.mp hn with hn | hn
        · have := hs.2.2 n hn
          omega
        · rcases List.mem_cons.mp hn with rfl | hn
          · omega
          · rcases List.mem_append.mp hn with hn | hn
            · have := ha.2.2 n hn
              omega
            · rcases List.mem_cons.mp hn with rfl | hn
              · omega
              · have := ht.2.2 n hn
                omega

/-- `inner_configure`'s event list is the `configure` trace, the flag
clearing (plus the flag set on success), and one terminal progress
event: 0 exactly on error, 1000 exactly on success. -/
theorem inner_configure_split (env : Env) (param : LoginParam) :
    ∃ body lastv,
      (inner_configure env param).1 = body ++ [lastv]
      ∧ progressOf body = progressOf (configure env param).1
      ∧ CEvent.clearNotifyBadPw ∈ body
      ∧ ((lastv = CEvent.progress 0
            ∧ CEvent.setNotifyBadPw ∉ body
            ∧ ∃ e, (inner_configure env param).2 = Except.error e)
          ∨ (lastv = CEvent.progress 1000
            ∧ (inner_configure env param).2 = Except.ok ())) := by
  have hall := (configure_events env param).1
  cases hc : configure env param with
  | mk evs res =>
    rw [hc] at hall
    cases res with
    | ok q =>
      refine ⟨evs ++ [CEvent.clearNotifyBadPw, CEvent.setNotifyBadPw],
        CEvent.progress 1000, ?_, ?_, ?_, Or.inr ⟨rfl, ?_⟩⟩
      · simp [inner_configure, hc]
      · simp [hc]
      · simp
      · simp [inner_configure, hc]
    | error e =>
      refine ⟨evs ++ [CEvent.clearNotifyBadPw], CEvent.progress 0,
        ?_, ?_, ?_, Or.inl ⟨rfl, ?_, e, ?_⟩⟩
      · simp [inner_configure, hc]
      · simp [hc]
      · simp
      · intro hmem
        rcases List.mem_append.mp hmem with h | h
        · have := List.all_eq_true.mp hall _ h
          simp [isFlagEvent] at this
        · simp at h
      · simp [inner_configure, hc]

/-- A context state with the scheduler stopped, the database open and
the single-flight slot free. -/
def stIdle : CtxState :=
  { scheduler_running := false, sql_open := true, ongoing_busy := false }

/-- A context state in which the scheduler is already running. -/
def stRunning : CtxState :=
  { scheduler_running := true, sql_open := true, ongoing_busy := false }

/-- C6 counterexample: a call rejected by the "already running"
precondition returns a fatal error having emitted no event at all —
in particular no terminal progress 0. -/
theorem precondition_failure_no_progress :
    (configureOuter stRunning envAllFail blankParam none).1 = []
    ∧ (configureOuter stRunning envAllFail blankParam none).2.1 =
        Except.error "cannot configure, already running" :=
  ⟨rfl, rfl⟩

/-- C6 (amended): every fatal error arising inside an admitted run
(validation, autoconfig exhaustion, mailbox setup, and so on) emits
terminal progress 0 as its last event before the error return, but the
precondition failures — already running, database not opened — return
their error immediately without emitting any progress value. -/
theorem fatal_error_progress_zero (st : CtxState) (env : Env)
    (param : LoginParam) :
    (st.scheduler_running = false → st.sql_open = true →
      st.ongoing_busy = false →
      ∀ e, (configureOuter st env param none).2.1 = Except.error e →
        (configureOuter st env param none).1.getLast? =
          some (CEvent.progress 0))
    ∧ (st.scheduler_running = true →
        configureOuter st env param none =
          ([], Except.error "cannot configure, already running", st))
    ∧ (st.scheduler_running = false → st.sql_open = false →
        configureOuter st env param none =
          ([], Except.error "cannot configure, database not opened.", st)) := by
  refine ⟨?_, ?_, ?_⟩
  · intro h1 h2 h3 e he
    obtain ⟨body, lastv, hsplit, hpb, hclear, hlast⟩ :=
      inner_configure_split env param
    simp only [configureOuter, h1, h2, h3, Bool.not_true, Bool.not_false,
      Bool.false_eq_true, Bool.true_eq_false, if_false, if_true] at he ⊢
    rcases hlast with ⟨hl0, _, e2, herr⟩ | ⟨hl1000, hok⟩
    · rw [hsplit, hl0]
      simp
    · rw [hok] at he
      exact absurd he (by simp)
  · intro h1
    simp [configureOuter, h1]
  · intro h1 h2
    simp [configureOuter, h1, h2]

/-- Witness for C6 (amended): a concrete admitted run that exhausts
all candidates ends its event stream with terminal progress 0. -/
theorem fatal_error_progress_zero_witness :
    (configureOuter stIdle envAllFail blankParam none).1.getLast? =
      some (CEvent.progress 0) :=
  (fatal_error_progress_zero stIdle envAllFail blankParam).1 rfl rfl rfl
    "IMAP autoconfig did not succeed" rfl

/-- C7 counterexample: in a concrete failing run a connection attempt
happens strictly before the "notify about wrong password" flag is
cleared, refuting "cleared at the start of the run, before any
configuration work". -/
theorem notify_flag_cleared_after_work :
    ((inner_configure envAllFail fullParam).1.takeWhile
        (fun e => e != CEvent.clearNotifyBadPw)).any
        (fun e =>
          match e with
          | CEvent.imapAttempt _ => true
          | _ => false) = true
    ∧ CEvent.clearNotifyBadPw ∈ (inner_configure envAllFail fullParam).1 := by
  exact ⟨by decide, by decide⟩

/-- C7 (amended): in every run the "notify about wrong password" flag
is cleared immediately after the core `configure` work returns
(success or failure) and before the outcome is inspected; on every
fatal error of the work it stays cleared — the set event never occurs
— and it is set again exactly on full success, right before terminal
progress 1000. -/
theorem notify_flag_contract (env : Env) (param : LoginParam) :
    (∃ tail, (inner_configure env param).1 =
        (configure env param).1 ++ CEvent.clearNotifyBadPw :: tail)
    ∧ (∀ e, (inner_configure env param).2 = Except.error e →
        CEvent.setNotifyBadPw ∉ (inner_configure env param).1)
    ∧ ((inner_configure env param).2 = Except.ok () →
        (inner_configure env param).1 =
          (configure env param).1
            ++ [CEvent.clearNotifyBadPw, CEvent.setNotifyBadPw,
                CEvent.progress 1000])
    ∧ (CEvent.setNotifyBadPw ∈ (inner_configure env param).1 →
        (inner_configure env param).2 = Except.ok ()) := by
  have hcfg := configure_events env param
  have hnoset : CEvent.setNotifyBadPw ∉ (configure env param).1 := by
    intro hmem
    have := List.all_eq_true.mp hcfg.1 _ hmem
    simp [isFlagEvent] at this
  cases hc : configure env param with
  | mk evs res =>
    rw [hc] at hnoset
    cases res with
    | ok q =>
      refine ⟨⟨[CEvent.setNotifyBadPw, CEvent.progress 1000],
        by simp [inner_configure, hc]⟩, ?_, ?_, ?_⟩
      · intro e he
        simp [inner_configure, hc] at he
      · intro _
        simp [inner_configure, hc]
      · intro _
        simp [inner_configure, hc]
    | error e =>
      refine ⟨⟨[CEvent.progress 0], by simp [inner_configure, hc]⟩,
        ?_, ?_, ?_⟩
      · intro e2 _
        simp only [inner_configure, hc]
        intro hmem
        rcases List.mem_append.mp hmem with h | h
        · exact hnoset h
        · simp at h
      · intro hok
        simp [inner_configure, hc] at hok
      · intro hmem
        simp only [inner_configure, hc] at hmem
        exfalso
        rcases List.mem_append.mp hmem with h | h
        · exact hnoset h
        · simp at h

/-- Witness for C7 (amended): in a concrete failing run, the flag-set
event does not occur. -/
theorem notify_flag_contract_witness :
    CEvent.setNotifyBadPw ∉ (inner_configure envAllFail fullParam).1 :=
  (notify_flag_contract envAllFail fullParam).2.1
    "IMAP autoconfig did not succeed" rfl

set_option maxHeartbeats 1000000 in
/-- C8: over every execution path — precondition rejection, fatal
error, success or cancellation — the emitted progress sequence is a
non-decreasing list of positive values optionally followed by a single
terminal 0, and 1000 appears only as the very last emitted value of a
run whose call returns success. -/
theorem progress_monotone (st : CtxState) (env : Env) (param : LoginParam)
    (cancel : Option Nat) :
    (∃ l, (progressOf (configureOuter st env param cancel).1 = l
          ∨ progressOf (configureOuter st env param cancel).1 = l ++ [0])
        ∧ List.Pairwise (· ≤ ·) l ∧ (∀ n ∈ l, 0 < n))
    ∧ (1000 ∈ progressOf (configureOuter st env param cancel).1 →
        (configureOuter st env param cancel).2.1 = Except.ok ()
        ∧ (progressOf (configureOuter st env param cancel).1).getLast?
            = some 1000
        ∧ (progressOf (configureOuter st env param cancel).1).count 1000
            = 1) := by
  cases h1 : st.scheduler_running with
  | true =>
    constructor
    · exact ⟨[], Or.inl (by simp [configureOuter, h1]), List.Pairwise.nil,
        by simp⟩
    · intro hmem
      simp [configureOuter, h1] at hmem
  | false =>
  cases h2 : st.sql_open with
  | false =>
    constructor
    · exact ⟨[], Or.inl (by simp [configureOuter, h1, h2]),
        List.Pairwise.nil, by simp⟩
    · intro hmem
      simp [configureOuter, h1, h2] at hmem
  | true =>
  cases h3 : st.ongoing_busy with
  | true =>
    constructor
    · exact ⟨[], Or.inl (by simp [configureOuter, h1, h2, h3]),
        List.Pairwise.nil, by simp⟩
    · intro hmem
      simp [configureOuter, h1, h2, h3] at hmem
  | false =>
  obtain ⟨body, lastv, hsplit, hpb, hclear, hlast⟩ :=
    inner_configure_split env param
  have hcfg := configure_events env param
  have hpos : ∀ n ∈ progressOf body, 0 < n := by
    rw [hpb]
    intro n hn
    have := (hcfg.2.2 n hn).1
    omega
  have hub : ∀ n ∈ progressOf body, n ≤ 940 := by
    rw [hpb]
    intro n hn
    exact (hcfg.2.2 n hn).2
  have hsorted : List.Pairwise (· ≤ ·) (progressOf body) := by
    rw [hpb]
    exact hcfg.2.1
  have hcount1000 : (progressOf body).count 1000 = 0 :=
    List.count_eq_zero.mpr (fun hm => by have := hub 1000 hm; omega)
  simp only [configureOuter, h1, h2, h3, Bool.not_true, Bool.not_false,
    Bool.false_eq_true, Bool.true_eq_false, if_false, if_true]
  cases cancel with
  | none =>
    rcases hlast with ⟨hl0, _, e, herr⟩ | ⟨hl1000, hok⟩
    · constructor
      · refine ⟨progressOf body, Or.inr ?_, hsorted, hpos⟩
        rw [hsplit, hl0]
        simp
      · intro hmem
        rw [hsplit, hl0] at hmem
        simp at hmem
        exact absurd (hub 1000 hmem) (by omega)
    · constructor
      · refine ⟨progressOf body ++ [1000], Or.inl ?_, ?_, ?_⟩
        · rw [hsplit, hl1000]
          simp
        · refine List.pairwise_append.mpr
            ⟨hsorted, List.pairwise_singleton _ _, ?_⟩
          intro a haa b hb
          simp at hb
          subst hb
          have := hub a haa
          omega
        · intro n hn
          rcases List.mem_append.mp hn with hn | hn
          · exact hpos n hn
          · simp at hn
            omega
      · intro _
        refine ⟨hok, ?_, ?_⟩
        · rw [hsplit, hl1000]
          simp
        · rw [hsplit, hl1000]
          simp [List.count_append, hcount1000]
  | some k =>
    by_cases hk : k < (inner_configure env param).1.length
    · have hkb : k ≤ body.length := by
        rw [hsplit] at hk
        simp at hk
        omega
      have htake : (inner_configure env param).1.take k = body.take k := by
        rw [hsplit]
        exact List.take_append_of_le_length hkb
      have hsub : List.Sublist (progressOf (body.take k)) (progressOf body) :=
        (List.take_sublist k body).filterMap _
      simp only [hk, if_true]
      constructor
      · refine ⟨progressOf (body.take k), Or.inr ?_, hsorted.sublist hsub,
          fun n hn => hpos n (hsub.subset hn)⟩
        rw [htake]
        simp
      · intro hmem
        rw [htake] at hmem
        simp at hmem
        exact absurd (hub 1000 (hsub.subset hmem)) (by omega)
    · simp only [hk, if_false]
      rcases hlast with ⟨hl0, _, e, herr⟩ | ⟨hl1000, hok⟩
      · constructor
        · refine ⟨progressOf body, Or.inr ?_, hsorted, hpos⟩
          rw [hsplit, hl0]
          simp
        · intro hmem
          rw [hsplit, hl0] at hmem
          simp at hmem
          exact absurd (hub 1000 hmem) (by omega)
      · constructor
        · refine ⟨progressOf body ++ [1000], Or.inl ?_, ?_, ?_⟩
          · rw [hsplit, hl1000]
            simp
          · refine List.pairwise_append.mpr
              ⟨hsorted, List.pairwise_singleton _ _, ?_⟩
            intro a haa b hb
            simp at hb
            subst hb
            have := hub a haa
            omega
          · intro n hn
            rcases List.mem_append.mp hn with hn | hn
            · exact hpos n hn
            · simp at hn
              omega
        · intro _
          refine ⟨hok, ?_, ?_⟩
          · rw [hsplit, hl1000]
            simp
          · rw [hsplit, hl1000]
            simp [List.count_append, hcount1000]

/-- Witness for C8: a concrete fully successful run returns success
and its last progress value is a single 1000. -/
theorem progress_monotone_witness :
    (configureOuter stIdle envAllOk fullParam none).2.1 = Except.ok ()
    ∧ (progressOf (configureOuter stIdle envAllOk fullParam none).1).getLast?
        = some 1000
    ∧ (progressOf (configureOuter stIdle envAllOk fullParam none).1).count 1000
        = 1 :=
  (progress_monotone stIdle envAllOk fullParam none).2 (by decide)

/-- C9: when the cancellation signal wins the race (its cut comes
strictly before the work side's final atomic step), the call emits
the observed work prefix followed by exactly one terminal progress 0
— its last event — and returns a non-error result; and whatever the
outcome, the single-flight ongoing slot is free again when the call
returns. -/
theorem cancellation_contract (st : CtxState) (env : Env)
    (param : LoginParam) (h1 : st.scheduler_running = false)
    (h2 : st.sql_open = true) (h3 : st.ongoing_busy = false) :
    (∀ k, k < (inner_configure env param).1.length →
      (configureOuter st env param (some k)).2.1 = Except.ok ()
      ∧ (configureOuter st env param (some k)).1 =
          (inner_configure env param).1.take k ++ [CEvent.progress 0]
      ∧ (progressOf (configureOuter st env param (some k)).1).count 0 = 1
      ∧ (configureOuter st env param (some k)).1.getLast? =
          some (CEvent.progress 0))
    ∧ (∀ cancel,
        ((configureOuter st env param cancel).2.2).ongoing_busy = false) := by
  constructor
  · intro k hk
    obtain ⟨body, lastv, hsplit, hpb, hclear, hlast⟩ :=
      inner_configure_split env param
    have hcfg := configure_events env param
    have hkb : k ≤ body.length := by
      rw [hsplit] at hk
      simp at hk
      omega
    have htake : (inner_configure env param).1.take k = body.take k := by
      rw [hsplit]
      exact List.take_append_of_le_length hkb
    have hsub : List.Sublist (progressOf (body.take k)) (progressOf body) :=
      (List.take_sublist k body).filterMap _
    have hpos : ∀ n ∈ progressOf body, 0 < n := by
      rw [hpb]
      intro n hn
      have := (hcfg.2.2 n hn).1
      omega
    have hcount : (progressOf (body.take k)).count 0 = 0 :=
      List.count_eq_zero.mpr
        (fun hm => by have := hpos 0 (hsub.subset hm); omega)
    simp only [configureOuter, h1, h2, h3, Bool.not_true, Bool.not_false,
      Bool.false_eq_true, Bool.true_eq_false, if_false, if_true, hk]
    refine ⟨by trivial, by trivial, ?_, by simp⟩
    rw [htake]
    simp [List.count_append, hcount]
  · intro cancel
    simp [configureOuter, h1, h2, h3]

/-- Witness for C9: a concrete run cancelled after three events emits
its prefix plus one terminal 0, returns success, and leaves the slot
free. -/
theorem cancellation_contract_witness :
    (configureOuter stIdle envAllOk fullParam (some 3)).2.1 = Except.ok ()
    ∧ (configureOuter stIdle envAllOk fullParam (some 3)).1 =
        (inner_configure envAllOk fullParam).1.take 3 ++ [CEvent.progress 0]
    ∧ (progressOf (configureOuter stIdle envAllOk fullParam (some 3)).1).count 0
        = 1
    ∧ (configureOuter stIdle envAllOk fullParam (some 3)).1.getLast? =
        some (CEvent.progress 0) :=
  (cancellation_contract stIdle envAllOk fullParam rfl rfl rfl).1 3 (by decide)

end DC
